import Mathlib

/-!
# TileGameSproul: the update loop of `TestSprite.go`

A shallow embedding of the game state and of the functions that change it
(`getPlayerInput`, `updateSoldier`, `isBarrier`, `isSoldierCollision`,
`AnimatedSprite.Update`, and the barrier-building loop of `main`).

Conventions.
* Go `int` is 64 bits wide: every addition, subtraction, multiplication and
  division of the source is followed by `wrap64`.
* Go `/` and `%` truncate toward zero: `Int.tdiv` and `Int.tmod`.
* A run-time panic (integer division by zero, slice index out of range) is
  the result `none`.
* `map[int]bool` is an association list; reading a missing key gives `false`.
* The fields that only the renderer reads (`spriteSheet`, `tileDict`) carry no
  game logic and are left out of the records.
* `ebiten.IsKeyPressed` is an input of the tick: the record `Keys`.
-/

namespace TileGame

/-! ## Constants -/

def WINDOW_WIDTH : Int := 750
def WINDOW_HEIGHT : Int := 750
def GUY_FRAME_WIDTH : Int := 48
def GUY_HEIGHT : Int := 64
def FRAME_COUNT : Int := 4
def FRAMES_PER_SHEET : Int := 3

def UP : Int := 0
def RIGHT : Int := 1
def DOWN : Int := 2
def LEFT : Int := 3
def IDLE : Int := 4

/-! ## Machine integers -/

/-- Two-complement wrap-around of a mathematical integer into the range of a
64-bit Go `int`. -/
def wrap64 (n : Int) : Int := (n + 9223372036854775808) % 18446744073709551616 - 9223372036854775808

/-- Go integer division: panics on a zero divisor, truncates toward zero. -/
def goDiv (a b : Int) : Option Int :=
  if b = 0 then none else some (wrap64 (Int.tdiv a b))

/-! ## Go maps from `int` to `bool` -/

/-- A Go `map[int]bool` as an association list, newest binding first. -/
abbrev BarrierMap := List (Int × Bool)

/-- Reading `m[k]`: the bound value, or the zero value `false`. -/
def BarrierMap.get (m : BarrierMap) (k : Int) : Bool :=
  match m with
  | [] => false
  | (k', v) :: rest => if k' = k then v else BarrierMap.get rest k

/-- Writing `m[k] = v`. -/
def BarrierMap.set (m : BarrierMap) (k : Int) (v : Bool) : BarrierMap :=
  (k, v) :: m

/-! ## Data model -/

structure PlayerSprite where
  xLoc : Int
  yLoc : Int
  direction : Int
  frame : Int
  frameDelay : Int
  deriving DecidableEq, Repr

structure SoldierSprite where
  toPlayerSprite : PlayerSprite
  moveCount : Int
  deriving DecidableEq, Repr

/-- The fields of `tiled.Map` that the program reads; `Tiles` holds the tile
IDs of layer 0. -/
structure TiledMap where
  Width : Int
  Height : Int
  TileWidth : Int
  TileHeight : Int
  Tiles : List Nat
  deriving DecidableEq, Repr

structure AnimatedSprite where
  player : PlayerSprite
  soldiers : SoldierSprite × SoldierSprite
  gameMap : TiledMap
  barriers : BarrierMap
  deriving DecidableEq, Repr

/-- The arrow keys held down during one tick. -/
structure Keys where
  left : Bool
  right : Bool
  up : Bool
  down : Bool
  deriving DecidableEq, Repr

/-! ## Collision tests -/

def isBarrier (x y : Int) (game : AnimatedSprite) : Option Bool :=
  match goDiv x game.gameMap.TileWidth with
  | none => none
  | some tileX =>
    match goDiv y game.gameMap.TileHeight with
    | none => none
    | some tileY =>
      let tileIndex := wrap64 (wrap64 (tileY * game.gameMap.Width) + tileX)
      some (game.barriers.get tileIndex)

def soldierHit (x y : Int) (soldier : SoldierSprite) : Bool :=
  decide (x = soldier.toPlayerSprite.xLoc) && decide (y = soldier.toPlayerSprite.yLoc)

def isSoldierCollision (x y : Int) (game : AnimatedSprite) : Bool :=
  if soldierHit x y game.soldiers.1 then true
  else if soldierHit x y game.soldiers.2 then true
  else false

/-! ## Patrol logic -/

/-- The body of `updateSoldier` after the barrier test came out `false`:
the horizontal step and the clamp to the window. -/
def soldierMove (p : PlayerSprite) : PlayerSprite :=
  let p1 : PlayerSprite :=
    if p.direction = LEFT then { p with xLoc := wrap64 (p.xLoc - 2) }
    else if p.direction = RIGHT then { p with xLoc := wrap64 (p.xLoc + 2) }
    else p
  if p1.xLoc < 0 then { p1 with xLoc := 0, direction := RIGHT }
  else if p1.xLoc > WINDOW_WIDTH - GUY_FRAME_WIDTH then
    { p1 with xLoc := WINDOW_WIDTH - GUY_FRAME_WIDTH, direction := LEFT }
  else p1

/-- The counter part of `updateSoldier`: `moveCount++` and the turn at 60. -/
def soldierTick (soldier : SoldierSprite) : SoldierSprite :=
  let s1 : SoldierSprite := { soldier with moveCount := wrap64 (soldier.moveCount + 1) }
  if s1.moveCount ≥ 60 then
    { moveCount := 0
      toPlayerSprite :=
        { s1.toPlayerSprite with
          direction := Int.tmod (wrap64 (s1.toPlayerSprite.direction + 1)) 4 } }
  else s1

def updateSoldier (soldier : SoldierSprite) (game : AnimatedSprite) : Option SoldierSprite :=
  let s2 := soldierTick soldier
  match isBarrier s2.toPlayerSprite.xLoc s2.toPlayerSprite.yLoc game with
  | none => none
  | some true => some s2
  | some false => some { s2 with toPlayerSprite := soldierMove s2.toPlayerSprite }

/-! ## Player input -/

/-- The key cascade of `getPlayerInput`, entered with `direction = IDLE`. -/
def keyDirection (keys : Keys) (p : PlayerSprite) : Int :=
  if keys.left && decide (p.xLoc > 0) then LEFT
  else if keys.right && decide (p.xLoc < WINDOW_WIDTH - GUY_FRAME_WIDTH) then RIGHT
  else if keys.up && decide (p.yLoc > 0) then UP
  else if keys.down && decide (p.yLoc < WINDOW_HEIGHT - GUY_HEIGHT) then DOWN
  else IDLE

def getPlayerInput (keys : Keys) (game : AnimatedSprite) : Option AnimatedSprite :=
  let g1 : AnimatedSprite := { game with player := { game.player with direction := IDLE } }
  match isBarrier g1.player.xLoc g1.player.yLoc g1 with
  | none => none
  | some true => some g1
  | some false =>
    if isSoldierCollision g1.player.xLoc g1.player.yLoc g1 then some g1
    else some { g1 with player := { g1.player with direction := keyDirection keys g1.player } }

/-! ## One tick -/

/-- The loop body `updateSoldier(&tileGame.soldiers[i], tileGame)` for `i = 0`. -/
def updateSoldier0 (game : AnimatedSprite) : Option AnimatedSprite :=
  match updateSoldier game.soldiers.1 game with
  | none => none
  | some s => some { game with soldiers := (s, game.soldiers.2) }

/-- The loop body `updateSoldier(&tileGame.soldiers[i], tileGame)` for `i = 1`. -/
def updateSoldier1 (game : AnimatedSprite) : Option AnimatedSprite :=
  match updateSoldier game.soldiers.2 game with
  | none => none
  | some s => some { game with soldiers := (game.soldiers.1, s) }

/-- The animation block of `Update`. -/
def animate (p : PlayerSprite) : PlayerSprite :=
  if p.direction ≠ IDLE then
    let p1 : PlayerSprite := { p with frameDelay := wrap64 (p.frameDelay + 1) }
    if Int.tmod p1.frameDelay FRAME_COUNT = 0 then
      let p2 : PlayerSprite := { p1 with frame := wrap64 (p1.frame + 1) }
      if p2.frame ≥ FRAMES_PER_SHEET then { p2 with frame := 0 } else p2
    else p1
  else { p with frame := 1 }

/-- The closing `switch` of `Update`: the displacement of the player. -/
def movePlayer (p : PlayerSprite) : PlayerSprite :=
  if p.direction = LEFT then { p with xLoc := wrap64 (p.xLoc - 5) }
  else if p.direction = RIGHT then { p with xLoc := wrap64 (p.xLoc + 5) }
  else if p.direction = UP then { p with yLoc := wrap64 (p.yLoc - 5) }
  else if p.direction = DOWN then { p with yLoc := wrap64 (p.yLoc + 5) }
  else p

def Update (keys : Keys) (tileGame : AnimatedSprite) : Option AnimatedSprite :=
  match getPlayerInput keys tileGame with
  | none => none
  | some g1 =>
    match updateSoldier0 g1 with
    | none => none
    | some g2 =>
      match updateSoldier1 g2 with
      | none => none
      | some g3 => some { g3 with player := movePlayer (animate g3.player) }

/-- Consecutive ticks, one `Keys` record per tick. -/
def UpdateN : List Keys → AnimatedSprite → Option AnimatedSprite
  | [], g => some g
  | k :: ks, g =>
    match Update k g with
    | none => none
    | some g1 => UpdateN ks g1

/-- Consecutive calls of `updateSoldier` on one soldier. -/
def updateSoldierN : Nat → SoldierSprite → AnimatedSprite → Option SoldierSprite
  | 0, s, _ => some s
  | n + 1, s, g =>
    match updateSoldier s g with
    | none => none
    | some s1 => updateSoldierN n s1 g

/-! ## The barrier set built by `main` -/

/-- Reading `gameMap.Layers[0].Tiles[i].ID`; an index outside the slice panics. -/
def tileID (m : TiledMap) (i : Int) : Option Nat :=
  if 0 ≤ i then m.Tiles.get? i.toNat else none

/-- The body of the inner loop of `main` at column `x` of row `y`.  The index
is below `len(Tiles)` whenever the read succeeds, so it does not overflow. -/
def barrierCell (m : TiledMap) (y x : Nat) (barriers : BarrierMap) : Option BarrierMap :=
  let i : Int := (y : Int) * m.Width + (x : Int)
  match tileID m i with
  | none => none
  | some id => if id = 1 then some (barriers.set i true) else some barriers

/-- The inner loop `for x := 0; x < gameMap.Width; x++`. -/
def barrierRow (m : TiledMap) (y : Nat) (barriers : BarrierMap) : Option BarrierMap :=
  (List.range m.Width.toNat).foldlM (fun b x => barrierCell m y x b) barriers

/-- The outer loop `for y := 0; y < gameMap.Height; y++`, started on the
empty map made by `make(map[int]bool)`. -/
def buildBarriers (m : TiledMap) : Option BarrierMap :=
  (List.range m.Height.toNat).foldlM (fun b y => barrierRow m y b) []

/-! ## Concrete states used as test inputs -/

/-- A map of 3 by 2 tiles of 32 by 32 pixels whose tiles 1 and 5 have ID 1. -/
def demoMap : TiledMap :=
  { Width := 3, Height := 2, TileWidth := 32, TileHeight := 32, Tiles := [0, 1, 0, 0, 0, 1] }

/-- The barrier set that `main` builds for `demoMap`. -/
def demoBarriers : BarrierMap := [(5, true), (1, true)]

/-- A sprite standing at `(x, y)` and heading in direction `d`. -/
def spriteAt (x y d : Int) : PlayerSprite :=
  { xLoc := x, yLoc := y, direction := d, frame := 0, frameDelay := 0 }

/-- A soldier standing at `(x, y)`, heading in direction `d`, with counter `m`. -/
def soldierAt (x y d m : Int) : SoldierSprite :=
  { toPlayerSprite := spriteAt x y d, moveCount := m }

/-- The game on `demoMap` with the player at `(x, y)` and both soldiers idle
far away from the player. -/
def demoGame (x y : Int) : AnimatedSprite :=
  { player := spriteAt x y IDLE
    soldiers := (soldierAt 200 100 IDLE 0, soldierAt 400 300 IDLE 0)
    gameMap := demoMap
    barriers := demoBarriers }

def noKeys : Keys := { left := false, right := false, up := false, down := false }
def leftKey : Keys := { noKeys with left := true }
def rightKey : Keys := { noKeys with right := true }
def upKey : Keys := { noKeys with up := true }
def downKey : Keys := { noKeys with down := true }

/-- The values of a 64-bit Go `int`. -/
def isInt64 (n : Int) : Prop := -9223372036854775808 ≤ n ∧ n < 9223372036854775808

/-- The game state that `main` hands to the engine: the player in the middle
of the window, two idle soldiers.  The four draws of `rand.Intn` are the
parameters `r0x r0y r1x r1y`. -/
def newGame (gameMap : TiledMap) (barriers : BarrierMap) (r0x r0y r1x r1y : Int) :
    AnimatedSprite :=
  let windowWidth := wrap64 (gameMap.Width * gameMap.TileWidth)
  let windowHeight := wrap64 (gameMap.Height * gameMap.TileHeight)
  { player :=
      { xLoc := wrap64 (Int.tdiv windowWidth 2 - Int.tdiv GUY_FRAME_WIDTH 2)
        yLoc := wrap64 (Int.tdiv windowHeight 2 - Int.tdiv GUY_HEIGHT 2)
        direction := IDLE, frame := 0, frameDelay := 0 }
    soldiers :=
      ({ toPlayerSprite := { xLoc := r0x, yLoc := r0y, direction := IDLE, frame := 0, frameDelay := 0 }
         moveCount := 0 },
       { toPlayerSprite := { xLoc := r1x, yLoc := r1y, direction := IDLE, frame := 0, frameDelay := 0 }
         moveCount := 0 })
    gameMap := gameMap
    barriers := barriers }

/-- A map that fills the 750 by 750 window: 25 by 25 tiles of 30 by 30
pixels, all passable but tile 288 (column 13 of row 11). -/
def arenaMap : TiledMap :=
  { Width := 25, Height := 25, TileWidth := 30, TileHeight := 30
    Tiles := List.replicate 288 0 ++ [1] ++ List.replicate 336 0 }

/-- The barrier set that `main` builds for `arenaMap`. -/
def arenaBarriers : BarrierMap := [(288, true)]

/-- The start of a game on `arenaMap`, the soldiers drawn at `(200, 100)` and
`(400, 500)`; the player starts at `(351, 343)`. -/
def arenaGame : AnimatedSprite := newGame arenaMap arenaBarriers 200 100 400 500

/-! ## The loop invariant of the barrier-building loop -/

/-- Loop invariant of `buildBarriers`: the barrier set `b` marks exactly the tiles with ID 1 among the indices
below `n`. -/
def BuiltUpTo (m : TiledMap) (n : Int) (b : BarrierMap) : Prop :=
  ∀ i : Int, b.get i = true ↔ (0 ≤ i ∧ i < n ∧ tileID m i = some 1)

/-! ## The patrol cycle (used to state the invariant of a patrol) -/

/-- Position of a soldier in its cycle of 240 ticks: 0 to 59 while heading
RIGHT, 60 to 119 heading DOWN, 120 to 179 heading LEFT, 180 to 239 heading UP. -/
def cycleTick (s : SoldierSprite) : Int :=
  60 * ((s.toPlayerSprite.direction + 3) % 4) + s.moveCount

/-- Distance of a soldier from the left end of its patrol, read off its
direction and counter. -/
def cycleOffset (s : SoldierSprite) : Int :=
  if s.toPlayerSprite.direction = RIGHT then 2 * (s.moveCount + 1)
  else if s.toPlayerSprite.direction = DOWN then 120
  else if s.toPlayerSprite.direction = LEFT then 120 - 2 * (s.moveCount + 1)
  else 0

/-- Invariant of a patrol whose left end is `base`. -/
def OnPatrol (base : Int) (s : SoldierSprite) : Prop :=
  0 ≤ s.toPlayerSprite.direction ∧ s.toPlayerSprite.direction ≤ 3 ∧
  0 ≤ s.moveCount ∧ s.moveCount < 60 ∧
  s.toPlayerSprite.xLoc = base + cycleOffset s

/-! ## Basic facts -/

theorem tmod_four_cases (x : Int) :
    (0 ≤ x ∧ Int.tmod x 4 = x % 4) ∨ (x < 0 ∧ Int.tmod x 4 = -((-x) % 4)) := by
  rcases le_or_lt 0 x with h | h
  · exact Or.inl ⟨h, Int.tmod_eq_emod h (by decide)⟩
  · refine Or.inr ⟨h, ?_⟩
    have h1 : Int.tmod (-x) 4 = (-x) % 4 := Int.tmod_eq_emod (by omega) (by decide)
    have h2 : Int.tmod (-x) 4 = -(Int.tmod x 4) := by
      rw [Int.tmod_def, Int.tmod_def, Int.neg_tdiv]; ring
    omega

theorem turn_ne (d : Int) : Int.tmod (wrap64 (d + 1)) 4 ≠ d := by
  rcases tmod_four_cases (wrap64 (d + 1)) with ⟨h0, h⟩ | ⟨h0, h⟩
  · rw [h]; unfold wrap64 at *; omega
  · rw [h]; unfold wrap64 at *; omega

theorem isBarrier_total (x y : Int) (g : AnimatedSprite)
    (hw : g.gameMap.TileWidth ≠ 0) (hh : g.gameMap.TileHeight ≠ 0) :
    ∃ b, isBarrier x y g = some b := by
  simp [isBarrier, goDiv, hw, hh]

theorem isBarrier_congr (x y : Int) (g g1 : AnimatedSprite)
    (hm : g1.gameMap = g.gameMap) (hb : g1.barriers = g.barriers) :
    isBarrier x y g1 = isBarrier x y g := by
  simp [isBarrier, hm, hb]

/-! ## Facts about the patrol logic -/

theorem soldierTick_xLoc (s : SoldierSprite) :
    (soldierTick s).toPlayerSprite.xLoc = s.toPlayerSprite.xLoc := by
  unfold soldierTick; dsimp only; split <;> rfl

theorem soldierTick_yLoc (s : SoldierSprite) :
    (soldierTick s).toPlayerSprite.yLoc = s.toPlayerSprite.yLoc := by
  unfold soldierTick; dsimp only; split <;> rfl

theorem soldierTick_before_turn (s : SoldierSprite)
    (h0 : 0 ≤ s.moveCount) (h1 : s.moveCount < 59) :
    soldierTick s = { s with moveCount := s.moveCount + 1 } := by
  have hw : wrap64 (s.moveCount + 1) = s.moveCount + 1 := by unfold wrap64; omega
  unfold soldierTick; dsimp only
  rw [hw, if_neg (by omega)]

theorem soldierTick_at_turn (s : SoldierSprite) (h : s.moveCount = 59) :
    soldierTick s =
      { moveCount := 0
        toPlayerSprite :=
          { s.toPlayerSprite with
            direction := Int.tmod (wrap64 (s.toPlayerSprite.direction + 1)) 4 } } := by
  have hw : wrap64 (s.moveCount + 1) = 60 := by rw [h]; decide
  unfold soldierTick; dsimp only
  rw [hw, if_pos (by decide)]

theorem soldierMove_yLoc (p : PlayerSprite) : (soldierMove p).yLoc = p.yLoc := by
  unfold soldierMove; dsimp only
  split_ifs <;> rfl

theorem soldierMove_xLoc_bounds (p : PlayerSprite) :
    0 ≤ (soldierMove p).xLoc ∧ (soldierMove p).xLoc ≤ WINDOW_WIDTH - GUY_FRAME_WIDTH := by
  unfold soldierMove; dsimp only
  simp only [WINDOW_WIDTH, GUY_FRAME_WIDTH]
  split_ifs <;> (try dsimp only at *) <;> omega

/-- Away from the window edges the step of `updateSoldier` is the plain
displacement and the clamp does nothing. -/
theorem soldierMove_inside (p : PlayerSprite) (h0 : 2 ≤ p.xLoc) (h1 : p.xLoc ≤ 700) :
    soldierMove p =
      { p with xLoc := if p.direction = LEFT then p.xLoc - 2
                       else if p.direction = RIGHT then p.xLoc + 2 else p.xLoc } := by
  have hl : wrap64 (p.xLoc - 2) = p.xLoc - 2 := by unfold wrap64; omega
  have hr : wrap64 (p.xLoc + 2) = p.xLoc + 2 := by unfold wrap64; omega
  unfold soldierMove; dsimp only
  rw [hl, hr]
  simp only [WINDOW_WIDTH, GUY_FRAME_WIDTH]
  by_cases hL : p.direction = LEFT
  · simp only [hL, if_true]
    rw [if_neg (by omega), if_neg (by omega)]
  · by_cases hR : p.direction = RIGHT
    · simp only [hR, if_true, if_neg (show ¬ RIGHT = LEFT by decide)]
      rw [if_neg (by omega), if_neg (by omega)]
    · simp only [if_neg hL, if_neg hR]
      rw [if_neg (by omega), if_neg (by omega)]

theorem updateSoldier_cases (s : SoldierSprite) (g : AnimatedSprite)
    (hw : g.gameMap.TileWidth ≠ 0) (hh : g.gameMap.TileHeight ≠ 0) :
    (isBarrier s.toPlayerSprite.xLoc s.toPlayerSprite.yLoc g = some true ∧
        updateSoldier s g = some (soldierTick s)) ∨
    (isBarrier s.toPlayerSprite.xLoc s.toPlayerSprite.yLoc g = some false ∧
        updateSoldier s g =
          some { soldierTick s with toPlayerSprite := soldierMove (soldierTick s).toPlayerSprite }) := by
  obtain ⟨b, hb⟩ := isBarrier_total s.toPlayerSprite.xLoc s.toPlayerSprite.yLoc g hw hh
  unfold updateSoldier; dsimp only
  rw [soldierTick_xLoc, soldierTick_yLoc, hb]
  cases b <;> simp

theorem updateSoldier_total (s : SoldierSprite) (g : AnimatedSprite)
    (hw : g.gameMap.TileWidth ≠ 0) (hh : g.gameMap.TileHeight ≠ 0) :
    ∃ s1, updateSoldier s g = some s1 := by
  rcases updateSoldier_cases s g hw hh with ⟨_, h⟩ | ⟨_, h⟩ <;> exact ⟨_, h⟩

/-! ## Patrol sprites: window bounds, counter, turn -/

/-- C2: a soldier whose `xLoc` lies in `[0, WINDOW_WIDTH - GUY_FRAME_WIDTH]`
(that is `[0, 702]`), with any direction and any `moveCount`, on any map with
positive tile width and height and any barrier set, comes out of one call of
`updateSoldier` with `xLoc` again in `[0, 702]` and with its `yLoc` unchanged;
and the call does return. -/
theorem soldier_stays_in_window (s : SoldierSprite) (g : AnimatedSprite)
    (hw : 0 < g.gameMap.TileWidth) (hh : 0 < g.gameMap.TileHeight)
    (hx0 : 0 ≤ s.toPlayerSprite.xLoc)
    (hx1 : s.toPlayerSprite.xLoc ≤ WINDOW_WIDTH - GUY_FRAME_WIDTH) :
    WINDOW_WIDTH - GUY_FRAME_WIDTH = 702 ∧
    ∃ s1, updateSoldier s g = some s1 ∧
      0 ≤ s1.toPlayerSprite.xLoc ∧
      s1.toPlayerSprite.xLoc ≤ WINDOW_WIDTH - GUY_FRAME_WIDTH ∧
      s1.toPlayerSprite.yLoc = s.toPlayerSprite.yLoc := by
  refine ⟨by decide, ?_⟩
  rcases updateSoldier_cases s g (ne_of_gt hw) (ne_of_gt hh) with ⟨_, h⟩ | ⟨_, h⟩
  · refine ⟨_, h, ?_, ?_, ?_⟩
    · rw [soldierTick_xLoc]; exact hx0
    · rw [soldierTick_xLoc]; exact hx1
    · exact soldierTick_yLoc s
  · refine ⟨_, h, ?_, ?_, ?_⟩
    · exact (soldierMove_xLoc_bounds _).1
    · exact (soldierMove_xLoc_bounds _).2
    · dsimp only
      rw [soldierMove_yLoc, soldierTick_yLoc]

theorem soldier_stays_in_window_witness :
    0 < (demoGame 351 343).gameMap.TileWidth ∧
    0 < (demoGame 351 343).gameMap.TileHeight ∧
    0 ≤ (soldierAt 701 100 RIGHT 7).toPlayerSprite.xLoc ∧
    (soldierAt 701 100 RIGHT 7).toPlayerSprite.xLoc ≤ WINDOW_WIDTH - GUY_FRAME_WIDTH ∧
    (WINDOW_WIDTH - GUY_FRAME_WIDTH = 702 ∧
     ∃ s1, updateSoldier (soldierAt 701 100 RIGHT 7) (demoGame 351 343) = some s1 ∧
      0 ≤ s1.toPlayerSprite.xLoc ∧
      s1.toPlayerSprite.xLoc ≤ WINDOW_WIDTH - GUY_FRAME_WIDTH ∧
      s1.toPlayerSprite.yLoc = (soldierAt 701 100 RIGHT 7).toPlayerSprite.yLoc) :=
  ⟨by decide, by decide, by decide, by decide,
   soldier_stays_in_window (soldierAt 701 100 RIGHT 7) (demoGame 351 343)
     (by decide) (by decide) (by decide) (by decide)⟩

/-- C5: for a soldier with `0 ≤ moveCount < 60` and `2 ≤ xLoc ≤ 700` (any
direction, any barrier set, tile sizes nonzero so that the call returns),
`updateSoldier` leaves `moveCount + 1` and the same direction when
`moveCount < 59`, and leaves `0` and a different direction when
`moveCount = 59`; in both cases the new counter lies in `[0, 60)`. -/
theorem moveCount_turns_every_60 (s : SoldierSprite) (g : AnimatedSprite)
    (hw : g.gameMap.TileWidth ≠ 0) (hh : g.gameMap.TileHeight ≠ 0)
    (hm0 : 0 ≤ s.moveCount) (hm1 : s.moveCount < 60)
    (hx0 : 2 ≤ s.toPlayerSprite.xLoc) (hx1 : s.toPlayerSprite.xLoc ≤ 700) :
    ∃ s1, updateSoldier s g = some s1 ∧
      (s.moveCount < 59 →
        s1.moveCount = s.moveCount + 1 ∧
        s1.toPlayerSprite.direction = s.toPlayerSprite.direction) ∧
      (s.moveCount = 59 →
        s1.moveCount = 0 ∧
        s1.toPlayerSprite.direction ≠ s.toPlayerSprite.direction) ∧
      0 ≤ s1.moveCount ∧ s1.moveCount < 60 := by
  have hx0t : 2 ≤ (soldierTick s).toPlayerSprite.xLoc := by rw [soldierTick_xLoc]; exact hx0
  have hx1t : (soldierTick s).toPlayerSprite.xLoc ≤ 700 := by rw [soldierTick_xLoc]; exact hx1
  -- the counter and the direction after the counter part
  have key : (s.moveCount < 59 →
        (soldierTick s).moveCount = s.moveCount + 1 ∧
        (soldierTick s).toPlayerSprite.direction = s.toPlayerSprite.direction) ∧
      (s.moveCount = 59 →
        (soldierTick s).moveCount = 0 ∧
        (soldierTick s).toPlayerSprite.direction ≠ s.toPlayerSprite.direction) := by
    constructor
    · intro h; rw [soldierTick_before_turn s hm0 h]; exact ⟨rfl, rfl⟩
    · intro h; rw [soldierTick_at_turn s h]; exact ⟨rfl, turn_ne _⟩
  have hrange : 0 ≤ (soldierTick s).moveCount ∧ (soldierTick s).moveCount < 60 := by
    rcases lt_or_eq_of_le (show s.moveCount ≤ 59 by omega) with h | h
    · have := (key.1 h).1; omega
    · have := (key.2 h).1; omega
  rcases updateSoldier_cases s g hw hh with ⟨_, h⟩ | ⟨_, h⟩
  · exact ⟨_, h, key.1, key.2, hrange.1, hrange.2⟩
  · refine ⟨_, h, ?_, ?_, hrange.1, hrange.2⟩
    · intro hlt
      refine ⟨(key.1 hlt).1, ?_⟩
      dsimp only
      rw [soldierMove_inside _ hx0t hx1t]
      exact (key.1 hlt).2
    · intro heq
      refine ⟨(key.2 heq).1, ?_⟩
      dsimp only
      rw [soldierMove_inside _ hx0t hx1t]
      exact (key.2 heq).2

theorem moveCount_turns_every_60_witness :
    (demoGame 351 343).gameMap.TileWidth ≠ 0 ∧
    (demoGame 351 343).gameMap.TileHeight ≠ 0 ∧
    0 ≤ (soldierAt 300 100 LEFT 59).moveCount ∧
    (soldierAt 300 100 LEFT 59).moveCount < 60 ∧
    2 ≤ (soldierAt 300 100 LEFT 59).toPlayerSprite.xLoc ∧
    (soldierAt 300 100 LEFT 59).toPlayerSprite.xLoc ≤ 700 ∧
    ∃ s1, updateSoldier (soldierAt 300 100 LEFT 59) (demoGame 351 343) = some s1 ∧
      ((soldierAt 300 100 LEFT 59).moveCount < 59 →
        s1.moveCount = (soldierAt 300 100 LEFT 59).moveCount + 1 ∧
        s1.toPlayerSprite.direction = (soldierAt 300 100 LEFT 59).toPlayerSprite.direction) ∧
      ((soldierAt 300 100 LEFT 59).moveCount = 59 →
        s1.moveCount = 0 ∧
        s1.toPlayerSprite.direction ≠ (soldierAt 300 100 LEFT 59).toPlayerSprite.direction) ∧
      0 ≤ s1.moveCount ∧ s1.moveCount < 60 :=
  ⟨by decide, by decide, by decide, by decide, by decide, by decide,
   moveCount_turns_every_60 (soldierAt 300 100 LEFT 59) (demoGame 351 343)
     (by decide) (by decide) (by decide) (by decide) (by decide) (by decide)⟩

/-- C6, the claim refuted: a soldier inside the window that heads RIGHT with
its counter at 59 is left heading DOWN, not LEFT, by the call of
`updateSoldier` on which the counter reaches 60. -/
theorem patrol_flip_counterexample :
    (soldierAt 300 100 RIGHT 59).toPlayerSprite.direction = RIGHT ∧
    (soldierAt 300 100 RIGHT 59).moveCount = 59 ∧
    0 ≤ (soldierAt 300 100 RIGHT 59).toPlayerSprite.xLoc ∧
    (soldierAt 300 100 RIGHT 59).toPlayerSprite.xLoc ≤ WINDOW_WIDTH - GUY_FRAME_WIDTH ∧
    updateSoldier (soldierAt 300 100 RIGHT 59) (demoGame 351 343) =
      some (soldierAt 300 100 DOWN 0) ∧
    (soldierAt 300 100 DOWN 0).toPlayerSprite.direction ≠ LEFT := by
  decide

/-- C6, amended: on the `updateSoldier` call at which the counter reaches the
threshold of 60 (counter 59 before the call), for every soldier position
inside the window bounds and every barrier set (tile sizes nonzero so that the
call returns), the counter is reset to 0, a soldier that was heading RIGHT is
left heading DOWN and a soldier that was heading LEFT is left heading UP. -/
theorem patrol_turn_at_threshold (s : SoldierSprite) (g : AnimatedSprite)
    (hw : g.gameMap.TileWidth ≠ 0) (hh : g.gameMap.TileHeight ≠ 0)
    (hm : s.moveCount = 59)
    (hx0 : 0 ≤ s.toPlayerSprite.xLoc)
    (hx1 : s.toPlayerSprite.xLoc ≤ WINDOW_WIDTH - GUY_FRAME_WIDTH) :
    ∃ s1, updateSoldier s g = some s1 ∧ s1.moveCount = 0 ∧
      (s.toPlayerSprite.direction = RIGHT → s1.toPlayerSprite.direction = DOWN) ∧
      (s.toPlayerSprite.direction = LEFT → s1.toPlayerSprite.direction = UP) := by
  have ht := soldierTick_at_turn s hm
  have hdR : s.toPlayerSprite.direction = RIGHT →
      (soldierTick s).toPlayerSprite.direction = DOWN := by
    intro h; rw [ht]; dsimp only; rw [h]; decide
  have hdL : s.toPlayerSprite.direction = LEFT →
      (soldierTick s).toPlayerSprite.direction = UP := by
    intro h; rw [ht]; dsimp only; rw [h]; decide
  have hmc : (soldierTick s).moveCount = 0 := by rw [ht]
  have hxt : (soldierTick s).toPlayerSprite.xLoc = s.toPlayerSprite.xLoc := soldierTick_xLoc s
  simp only [WINDOW_WIDTH, GUY_FRAME_WIDTH] at hx1
  -- a soldier heading UP or DOWN inside the window is neither moved nor clamped
  have hstill : ∀ p : PlayerSprite, 0 ≤ p.xLoc → p.xLoc ≤ 702 →
      (p.direction = DOWN ∨ p.direction = UP) → soldierMove p = p := by
    intro p h0 h1 hd
    have hL : p.direction ≠ LEFT := by
      rcases hd with h | h <;> rw [h] <;> decide
    have hR : p.direction ≠ RIGHT := by
      rcases hd with h | h <;> rw [h] <;> decide
    unfold soldierMove; dsimp only
    simp only [WINDOW_WIDTH, GUY_FRAME_WIDTH, if_neg hL, if_neg hR]
    rw [if_neg (by omega), if_neg (by omega)]
  rcases updateSoldier_cases s g hw hh with ⟨_, h⟩ | ⟨_, h⟩
  · exact ⟨_, h, hmc, hdR, hdL⟩
  · refine ⟨_, h, hmc, ?_, ?_⟩
    · intro hd
      dsimp only
      rw [hstill _ (by omega) (by omega) (Or.inl (hdR hd))]
      exact hdR hd
    · intro hd
      dsimp only
      rw [hstill _ (by omega) (by omega) (Or.inr (hdL hd))]
      exact hdL hd

theorem patrol_turn_at_threshold_witness :
    (demoGame 351 343).gameMap.TileWidth ≠ 0 ∧
    (demoGame 351 343).gameMap.TileHeight ≠ 0 ∧
    (soldierAt 702 100 RIGHT 59).moveCount = 59 ∧
    0 ≤ (soldierAt 702 100 RIGHT 59).toPlayerSprite.xLoc ∧
    (soldierAt 702 100 RIGHT 59).toPlayerSprite.xLoc ≤ WINDOW_WIDTH - GUY_FRAME_WIDTH ∧
    ∃ s1, updateSoldier (soldierAt 702 100 RIGHT 59) (demoGame 351 343) = some s1 ∧
      s1.moveCount = 0 ∧
      ((soldierAt 702 100 RIGHT 59).toPlayerSprite.direction = RIGHT →
        s1.toPlayerSprite.direction = DOWN) ∧
      ((soldierAt 702 100 RIGHT 59).toPlayerSprite.direction = LEFT →
        s1.toPlayerSprite.direction = UP) :=
  ⟨by decide, by decide, by decide, by decide, by decide,
   patrol_turn_at_threshold (soldierAt 702 100 RIGHT 59) (demoGame 351 343)
     (by decide) (by decide) (by decide) (by decide) (by decide)⟩

/-! ## Facts about the player tick -/

theorem keyDirection_cases (keys : Keys) (p : PlayerSprite) :
    (keyDirection keys p = LEFT ∧ 0 < p.xLoc) ∨
    (keyDirection keys p = RIGHT ∧ p.xLoc < 702) ∨
    (keyDirection keys p = UP ∧ 0 < p.yLoc) ∨
    (keyDirection keys p = DOWN ∧ p.yLoc < 686) ∨
    keyDirection keys p = IDLE := by
  unfold keyDirection
  simp only [WINDOW_WIDTH, WINDOW_HEIGHT, GUY_FRAME_WIDTH, GUY_HEIGHT, Bool.and_eq_true,
    decide_eq_true_eq]
  split_ifs with h1 h2 h3 h4
  · exact Or.inl ⟨rfl, h1.2⟩
  · exact Or.inr (Or.inl ⟨rfl, by omega⟩)
  · exact Or.inr (Or.inr (Or.inl ⟨rfl, h3.2⟩))
  · exact Or.inr (Or.inr (Or.inr (Or.inl ⟨rfl, by omega⟩)))
  · exact Or.inr (Or.inr (Or.inr (Or.inr rfl)))

theorem animate_xLoc (p : PlayerSprite) : (animate p).xLoc = p.xLoc := by
  unfold animate; dsimp only; split_ifs <;> rfl

theorem animate_yLoc (p : PlayerSprite) : (animate p).yLoc = p.yLoc := by
  unfold animate; dsimp only; split_ifs <;> rfl

theorem animate_direction (p : PlayerSprite) : (animate p).direction = p.direction := by
  unfold animate; dsimp only; split_ifs <;> rfl

theorem animate_idle_frame (p : PlayerSprite) (h : p.direction = IDLE) :
    (animate p).frame = 1 := by
  unfold animate; dsimp only; rw [if_neg (by simp [h])]

theorem movePlayer_direction (p : PlayerSprite) : (movePlayer p).direction = p.direction := by
  unfold movePlayer; split_ifs <;> rfl

theorem movePlayer_idle (p : PlayerSprite) (h : p.direction = IDLE) : movePlayer p = p := by
  unfold movePlayer
  rw [h, if_neg (by decide), if_neg (by decide), if_neg (by decide), if_neg (by decide)]

theorem movePlayer_left (p : PlayerSprite) (h : p.direction = LEFT) :
    (movePlayer p).xLoc = wrap64 (p.xLoc - 5) ∧ (movePlayer p).yLoc = p.yLoc := by
  unfold movePlayer; rw [if_pos h]; exact ⟨rfl, rfl⟩

theorem movePlayer_right (p : PlayerSprite) (h : p.direction = RIGHT) :
    (movePlayer p).xLoc = wrap64 (p.xLoc + 5) ∧ (movePlayer p).yLoc = p.yLoc := by
  unfold movePlayer
  rw [if_neg (by rw [h]; decide), if_pos h]; exact ⟨rfl, rfl⟩

theorem movePlayer_up (p : PlayerSprite) (h : p.direction = UP) :
    (movePlayer p).xLoc = p.xLoc ∧ (movePlayer p).yLoc = wrap64 (p.yLoc - 5) := by
  unfold movePlayer
  rw [if_neg (by rw [h]; decide), if_neg (by rw [h]; decide), if_pos h]; exact ⟨rfl, rfl⟩

theorem movePlayer_down (p : PlayerSprite) (h : p.direction = DOWN) :
    (movePlayer p).xLoc = p.xLoc ∧ (movePlayer p).yLoc = wrap64 (p.yLoc + 5) := by
  unfold movePlayer
  rw [if_neg (by rw [h]; decide), if_neg (by rw [h]; decide), if_neg (by rw [h]; decide),
    if_pos h]
  exact ⟨rfl, rfl⟩

/-- What `getPlayerInput` returns: the game with only `player.direction`
rewritten, to the key direction when the player stands neither on a barrier
nor on a soldier and to IDLE otherwise. -/
theorem getPlayerInput_spec (keys : Keys) (g : AnimatedSprite)
    (hw : g.gameMap.TileWidth ≠ 0) (hh : g.gameMap.TileHeight ≠ 0) :
    ∃ d, getPlayerInput keys g = some { g with player := { g.player with direction := d } } ∧
      ((isBarrier g.player.xLoc g.player.yLoc g = some false ∧
          isSoldierCollision g.player.xLoc g.player.yLoc g = false ∧
          d = keyDirection keys g.player) ∨
       ((isBarrier g.player.xLoc g.player.yLoc g = some true ∨
          isSoldierCollision g.player.xLoc g.player.yLoc g = true) ∧ d = IDLE)) := by
  obtain ⟨b, hb⟩ := isBarrier_total g.player.xLoc g.player.yLoc g hw hh
  have hb1 : isBarrier g.player.xLoc g.player.yLoc
      { g with player := { g.player with direction := IDLE } } = some b := by
    exact (isBarrier_congr _ _ g _ rfl rfl).trans hb
  have hc : isSoldierCollision g.player.xLoc g.player.yLoc
      { g with player := { g.player with direction := IDLE } } =
      isSoldierCollision g.player.xLoc g.player.yLoc g := rfl
  have hk : keyDirection keys { g.player with direction := IDLE } = keyDirection keys g.player := rfl
  unfold getPlayerInput; dsimp only
  rw [hb1, hc, hk]
  cases b with
  | true => exact ⟨IDLE, rfl, Or.inr ⟨Or.inl hb, rfl⟩⟩
  | false =>
    by_cases hs : isSoldierCollision g.player.xLoc g.player.yLoc g = true
    · refine ⟨IDLE, ?_, Or.inr ⟨Or.inr hs, rfl⟩⟩
      simp [hs]
    · refine ⟨keyDirection keys g.player, ?_, Or.inl ⟨hb, by simpa using hs, rfl⟩⟩
      simp [hs]

theorem updateSoldier0_spec (g : AnimatedSprite)
    (hw : g.gameMap.TileWidth ≠ 0) (hh : g.gameMap.TileHeight ≠ 0) :
    ∃ g1, updateSoldier0 g = some g1 ∧ g1.player = g.player ∧
      g1.gameMap = g.gameMap ∧ g1.barriers = g.barriers := by
  obtain ⟨s, hs⟩ := updateSoldier_total g.soldiers.1 g hw hh
  exact ⟨{ g with soldiers := (s, g.soldiers.2) }, by unfold updateSoldier0; rw [hs],
    rfl, rfl, rfl⟩

theorem updateSoldier1_spec (g : AnimatedSprite)
    (hw : g.gameMap.TileWidth ≠ 0) (hh : g.gameMap.TileHeight ≠ 0) :
    ∃ g1, updateSoldier1 g = some g1 ∧ g1.player = g.player ∧
      g1.gameMap = g.gameMap ∧ g1.barriers = g.barriers := by
  obtain ⟨s, hs⟩ := updateSoldier_total g.soldiers.2 g hw hh
  exact ⟨{ g with soldiers := (g.soldiers.1, s) }, by unfold updateSoldier1; rw [hs],
    rfl, rfl, rfl⟩

/-- What `Update` returns: the map and the barrier set are the ones it was
given, and the player is the old one with the direction chosen by
`getPlayerInput`, animated and then displaced. -/
theorem Update_spec (keys : Keys) (g : AnimatedSprite)
    (hw : g.gameMap.TileWidth ≠ 0) (hh : g.gameMap.TileHeight ≠ 0) :
    ∃ d g1, Update keys g = some g1 ∧
      g1.gameMap = g.gameMap ∧ g1.barriers = g.barriers ∧
      g1.player = movePlayer (animate { g.player with direction := d }) ∧
      ((isBarrier g.player.xLoc g.player.yLoc g = some false ∧
          isSoldierCollision g.player.xLoc g.player.yLoc g = false ∧
          d = keyDirection keys g.player) ∨
       ((isBarrier g.player.xLoc g.player.yLoc g = some true ∨
          isSoldierCollision g.player.xLoc g.player.yLoc g = true) ∧ d = IDLE)) := by
  obtain ⟨d, hg, hd⟩ := getPlayerInput_spec keys g hw hh
  obtain ⟨g2, h2, hp2, hm2, hb2⟩ :=
    updateSoldier0_spec { g with player := { g.player with direction := d } } hw hh
  obtain ⟨g3, h3, hp3, hm3, hb3⟩ :=
    updateSoldier1_spec g2 (by rw [hm2]; exact hw) (by rw [hm2]; exact hh)
  refine ⟨d, _, by unfold Update; rw [hg]; dsimp only; rw [h2]; dsimp only; rw [h3], ?_, ?_, ?_,
    hd⟩
  · dsimp only; rw [hm3, hm2]
  · dsimp only; rw [hb3, hb2]
  · dsimp only; rw [hp3, hp2]

/-- One tick moves the player by the displacement of the direction the tick
leaves in `player.direction`; a direction other than IDLE is only chosen when
its guard of `getPlayerInput` held. -/
theorem Update_displacement (keys : Keys) (g : AnimatedSprite)
    (hw : g.gameMap.TileWidth ≠ 0) (hh : g.gameMap.TileHeight ≠ 0)
    (hx : isInt64 g.player.xLoc) (hy : isInt64 g.player.yLoc) :
    ∃ g1, Update keys g = some g1 ∧
      ((g1.player.direction = LEFT ∧ 0 < g.player.xLoc ∧
          g1.player.xLoc = g.player.xLoc - 5 ∧ g1.player.yLoc = g.player.yLoc) ∨
       (g1.player.direction = RIGHT ∧ g.player.xLoc < 702 ∧
          g1.player.xLoc = g.player.xLoc + 5 ∧ g1.player.yLoc = g.player.yLoc) ∨
       (g1.player.direction = UP ∧ 0 < g.player.yLoc ∧
          g1.player.xLoc = g.player.xLoc ∧ g1.player.yLoc = g.player.yLoc - 5) ∨
       (g1.player.direction = DOWN ∧ g.player.yLoc < 686 ∧
          g1.player.xLoc = g.player.xLoc ∧ g1.player.yLoc = g.player.yLoc + 5) ∨
       (g1.player.direction = IDLE ∧
          g1.player.xLoc = g.player.xLoc ∧ g1.player.yLoc = g.player.yLoc)) := by
  obtain ⟨d, g1, hU, _, _, hp, hd⟩ := Update_spec keys g hw hh
  refine ⟨g1, hU, ?_⟩
  have hdir : g1.player.direction = d := by
    rw [hp, movePlayer_direction, animate_direction]
  have hidle : d = IDLE → g1.player.direction = IDLE ∧
      g1.player.xLoc = g.player.xLoc ∧ g1.player.yLoc = g.player.yLoc := by
    intro h
    refine ⟨by rw [hdir, h], ?_, ?_⟩
    · rw [hp, movePlayer_idle _ (by rw [animate_direction]; exact h), animate_xLoc]
    · rw [hp, movePlayer_idle _ (by rw [animate_direction]; exact h), animate_yLoc]
  unfold isInt64 at hx hy
  rcases hd with ⟨_, _, hk⟩ | ⟨_, h⟩
  · rcases keyDirection_cases keys g.player with ⟨hc, hb⟩ | ⟨hc, hb⟩ | ⟨hc, hb⟩ | ⟨hc, hb⟩ | hc
    · have hd : d = LEFT := hk.trans hc
      have hm := movePlayer_left (animate { g.player with direction := d })
        (by rw [animate_direction]; exact hd)
      rw [animate_xLoc, animate_yLoc] at hm
      refine Or.inl ⟨by rw [hdir, hd], hb, ?_, by rw [hp]; exact hm.2⟩
      rw [hp, hm.1]; dsimp only; unfold wrap64; omega
    · have hd : d = RIGHT := hk.trans hc
      have hm := movePlayer_right (animate { g.player with direction := d })
        (by rw [animate_direction]; exact hd)
      rw [animate_xLoc, animate_yLoc] at hm
      refine Or.inr (Or.inl ⟨by rw [hdir, hd], hb, ?_, by rw [hp]; exact hm.2⟩)
      rw [hp, hm.1]; dsimp only; unfold wrap64; omega
    · have hd : d = UP := hk.trans hc
      have hm := movePlayer_up (animate { g.player with direction := d })
        (by rw [animate_direction]; exact hd)
      rw [animate_xLoc, animate_yLoc] at hm
      refine Or.inr (Or.inr (Or.inl ⟨by rw [hdir, hd], hb, by rw [hp]; exact hm.1, ?_⟩))
      rw [hp, hm.2]; dsimp only; unfold wrap64; omega
    · have hd : d = DOWN := hk.trans hc
      have hm := movePlayer_down (animate { g.player with direction := d })
        (by rw [animate_direction]; exact hd)
      rw [animate_xLoc, animate_yLoc] at hm
      refine Or.inr (Or.inr (Or.inr (Or.inl ⟨by rw [hdir, hd], hb, by rw [hp]; exact hm.1, ?_⟩)))
      rw [hp, hm.2]; dsimp only; unfold wrap64; omega
    · exact Or.inr (Or.inr (Or.inr (Or.inr (hidle (hk.trans hc)))))
  · exact Or.inr (Or.inr (Or.inr (Or.inr (hidle h))))

/-- A tick entered with the player on a barrier tile or on a soldier leaves
the player where it was, IDLE, on frame 1. -/
theorem Update_frozen (keys : Keys) (g : AnimatedSprite)
    (hw : g.gameMap.TileWidth ≠ 0) (hh : g.gameMap.TileHeight ≠ 0)
    (h : isBarrier g.player.xLoc g.player.yLoc g = some true ∨
      isSoldierCollision g.player.xLoc g.player.yLoc g = true) :
    ∃ g1, Update keys g = some g1 ∧
      g1.gameMap = g.gameMap ∧ g1.barriers = g.barriers ∧
      g1.player.xLoc = g.player.xLoc ∧ g1.player.yLoc = g.player.yLoc ∧
      g1.player.direction = IDLE ∧ g1.player.frame = 1 := by
  obtain ⟨d, g1, hU, hm, hb, hp, hd⟩ := Update_spec keys g hw hh
  have hdI : d = IDLE := by
    rcases hd with ⟨h1, h2, _⟩ | ⟨_, h3⟩
    · rcases h with h | h
      · rw [h1] at h; cases h
      · rw [h2] at h; cases h
    · exact h3
  have hmv : g1.player = animate { g.player with direction := d } := by
    rw [hp, movePlayer_idle _ (by rw [animate_direction]; exact hdI)]
  refine ⟨g1, hU, hm, hb, ?_, ?_, ?_, ?_⟩
  · rw [hmv, animate_xLoc]
  · rw [hmv, animate_yLoc]
  · rw [hmv, animate_direction]; exact hdI
  · rw [hmv]; exact animate_idle_frame _ hdI

/-- A player on a barrier tile stays there through any run of ticks. -/
theorem UpdateN_on_barrier (ks : List Keys) :
    ∀ g : AnimatedSprite, g.gameMap.TileWidth ≠ 0 → g.gameMap.TileHeight ≠ 0 →
      isBarrier g.player.xLoc g.player.yLoc g = some true →
      ∃ gn, UpdateN ks g = some gn ∧
        gn.player.xLoc = g.player.xLoc ∧ gn.player.yLoc = g.player.yLoc := by
  induction ks with
  | nil => intro g _ _ _; exact ⟨g, rfl, rfl, rfl⟩
  | cons k ks ih =>
    intro g hw hh hb
    obtain ⟨g1, hU, hm, hbar, hx, hy, _, _⟩ := Update_frozen k g hw hh (Or.inl hb)
    have hb1 : isBarrier g1.player.xLoc g1.player.yLoc g1 = some true := by
      rw [hx, hy, isBarrier_congr _ _ g g1 hm hbar]; exact hb
    obtain ⟨gn, hN, hxn, hyn⟩ := ih g1 (by rw [hm]; exact hw) (by rw [hm]; exact hh) hb1
    refine ⟨gn, ?_, by rw [hxn, hx], by rw [hyn, hy]⟩
    show (match Update k g with
      | none => none
      | some g1 => UpdateN ks g1) = some gn
    rw [hU]; exact hN

theorem getPlayerInput_barriers (keys : Keys) (g g1 : AnimatedSprite)
    (h : getPlayerInput keys g = some g1) : g1.barriers = g.barriers := by
  unfold getPlayerInput at h
  dsimp only at h
  split at h
  · cases h
  · cases h; rfl
  · split_ifs at h <;> (cases h; rfl)

theorem updateSoldier0_barriers (g g1 : AnimatedSprite)
    (h : updateSoldier0 g = some g1) : g1.barriers = g.barriers := by
  unfold updateSoldier0 at h
  split at h
  · cases h
  · cases h; rfl

theorem updateSoldier1_barriers (g g1 : AnimatedSprite)
    (h : updateSoldier1 g = some g1) : g1.barriers = g.barriers := by
  unfold updateSoldier1 at h
  split at h
  · cases h
  · cases h; rfl

theorem Update_barriers (keys : Keys) (g g1 : AnimatedSprite)
    (h : Update keys g = some g1) : g1.barriers = g.barriers := by
  unfold Update at h
  split at h
  · cases h
  · rename_i a ha
    split at h
    · cases h
    · rename_i b hb
      split at h
      · cases h
      · rename_i c hc
        cases h
        show c.barriers = g.barriers
        rw [updateSoldier1_barriers b c hc, updateSoldier0_barriers a b hb,
          getPlayerInput_barriers keys g a ha]

/-! ## The player: displacement, window bounds, freezing -/

/-- C7: for every game state (tile sizes nonzero so that the tick returns,
player coordinates being Go `int` values) and every combination of pressed
arrow keys, the direction that `Update` leaves in `player.direction` is one of
LEFT, RIGHT, UP, DOWN, IDLE and the change of position made by that `Update`
is `(-5, 0)`, `(+5, 0)`, `(0, -5)`, `(0, +5)`, `(0, 0)` respectively. -/
theorem displacement_by_direction (keys : Keys) (g : AnimatedSprite)
    (hw : g.gameMap.TileWidth ≠ 0) (hh : g.gameMap.TileHeight ≠ 0)
    (hx : isInt64 g.player.xLoc) (hy : isInt64 g.player.yLoc) :
    ∃ g1, Update keys g = some g1 ∧
      ((g1.player.direction = LEFT ∧
          g1.player.xLoc = g.player.xLoc - 5 ∧ g1.player.yLoc = g.player.yLoc) ∨
       (g1.player.direction = RIGHT ∧
          g1.player.xLoc = g.player.xLoc + 5 ∧ g1.player.yLoc = g.player.yLoc) ∨
       (g1.player.direction = UP ∧
          g1.player.xLoc = g.player.xLoc ∧ g1.player.yLoc = g.player.yLoc - 5) ∨
       (g1.player.direction = DOWN ∧
          g1.player.xLoc = g.player.xLoc ∧ g1.player.yLoc = g.player.yLoc + 5) ∨
       (g1.player.direction = IDLE ∧
          g1.player.xLoc = g.player.xLoc ∧ g1.player.yLoc = g.player.yLoc)) := by
  obtain ⟨g1, hU, h⟩ := Update_displacement keys g hw hh hx hy
  refine ⟨g1, hU, ?_⟩
  rcases h with ⟨a, _, b, c⟩ | ⟨a, _, b, c⟩ | ⟨a, _, b, c⟩ | ⟨a, _, b, c⟩ | h
  · exact Or.inl ⟨a, b, c⟩
  · exact Or.inr (Or.inl ⟨a, b, c⟩)
  · exact Or.inr (Or.inr (Or.inl ⟨a, b, c⟩))
  · exact Or.inr (Or.inr (Or.inr (Or.inl ⟨a, b, c⟩)))
  · exact Or.inr (Or.inr (Or.inr (Or.inr h)))

theorem displacement_by_direction_witness :
    arenaGame.gameMap.TileWidth ≠ 0 ∧ arenaGame.gameMap.TileHeight ≠ 0 ∧
    isInt64 arenaGame.player.xLoc ∧ isInt64 arenaGame.player.yLoc ∧
    ∃ g1, Update upKey arenaGame = some g1 ∧
      ((g1.player.direction = LEFT ∧
          g1.player.xLoc = arenaGame.player.xLoc - 5 ∧
          g1.player.yLoc = arenaGame.player.yLoc) ∨
       (g1.player.direction = RIGHT ∧
          g1.player.xLoc = arenaGame.player.xLoc + 5 ∧
          g1.player.yLoc = arenaGame.player.yLoc) ∨
       (g1.player.direction = UP ∧
          g1.player.xLoc = arenaGame.player.xLoc ∧
          g1.player.yLoc = arenaGame.player.yLoc - 5) ∨
       (g1.player.direction = DOWN ∧
          g1.player.xLoc = arenaGame.player.xLoc ∧
          g1.player.yLoc = arenaGame.player.yLoc + 5) ∨
       (g1.player.direction = IDLE ∧
          g1.player.xLoc = arenaGame.player.xLoc ∧
          g1.player.yLoc = arenaGame.player.yLoc)) :=
  ⟨by decide, by decide, by unfold isInt64; decide, by unfold isInt64; decide,
   displacement_by_direction upKey arenaGame (by decide) (by decide)
     (by unfold isInt64; decide) (by unfold isInt64; decide)⟩

/-- C9: for every game state with `-4 ≤ player.xLoc ≤ 706` and
`-4 ≤ player.yLoc ≤ 690` (within 4 pixels of the rectangle
`[0, WINDOW_WIDTH - GUY_FRAME_WIDTH] x [0, WINDOW_HEIGHT - GUY_HEIGHT]`) and
every combination of pressed arrow keys, one `Update` returns a state whose
player satisfies the same inequalities. -/
theorem player_overshoot_at_most_4 (keys : Keys) (g : AnimatedSprite)
    (hw : g.gameMap.TileWidth ≠ 0) (hh : g.gameMap.TileHeight ≠ 0)
    (hx0 : -4 ≤ g.player.xLoc) (hx1 : g.player.xLoc ≤ WINDOW_WIDTH - GUY_FRAME_WIDTH + 4)
    (hy0 : -4 ≤ g.player.yLoc) (hy1 : g.player.yLoc ≤ WINDOW_HEIGHT - GUY_HEIGHT + 4) :
    WINDOW_WIDTH - GUY_FRAME_WIDTH + 4 = 706 ∧ WINDOW_HEIGHT - GUY_HEIGHT + 4 = 690 ∧
    ∃ g1, Update keys g = some g1 ∧
      -4 ≤ g1.player.xLoc ∧ g1.player.xLoc ≤ WINDOW_WIDTH - GUY_FRAME_WIDTH + 4 ∧
      -4 ≤ g1.player.yLoc ∧ g1.player.yLoc ≤ WINDOW_HEIGHT - GUY_HEIGHT + 4 := by
  refine ⟨by decide, by decide, ?_⟩
  simp only [WINDOW_WIDTH, WINDOW_HEIGHT, GUY_FRAME_WIDTH, GUY_HEIGHT] at *
  obtain ⟨g1, hU, h⟩ := Update_displacement keys g hw hh
    (by unfold isInt64; omega) (by unfold isInt64; omega)
  refine ⟨g1, hU, ?_⟩
  rcases h with ⟨_, a, b, c⟩ | ⟨_, a, b, c⟩ | ⟨_, a, b, c⟩ | ⟨_, a, b, c⟩ | ⟨_, b, c⟩ <;>
    omega

theorem player_overshoot_at_most_4_witness :
    (demoGame 706 (-4)).gameMap.TileWidth ≠ 0 ∧ (demoGame 706 (-4)).gameMap.TileHeight ≠ 0 ∧
    -4 ≤ (demoGame 706 (-4)).player.xLoc ∧
    (demoGame 706 (-4)).player.xLoc ≤ WINDOW_WIDTH - GUY_FRAME_WIDTH + 4 ∧
    -4 ≤ (demoGame 706 (-4)).player.yLoc ∧
    (demoGame 706 (-4)).player.yLoc ≤ WINDOW_HEIGHT - GUY_HEIGHT + 4 ∧
    (WINDOW_WIDTH - GUY_FRAME_WIDTH + 4 = 706 ∧ WINDOW_HEIGHT - GUY_HEIGHT + 4 = 690 ∧
     ∃ g1, Update downKey (demoGame 706 (-4)) = some g1 ∧
      -4 ≤ g1.player.xLoc ∧ g1.player.xLoc ≤ WINDOW_WIDTH - GUY_FRAME_WIDTH + 4 ∧
      -4 ≤ g1.player.yLoc ∧ g1.player.yLoc ≤ WINDOW_HEIGHT - GUY_HEIGHT + 4) :=
  ⟨by decide, by decide, by decide, by decide, by decide, by decide,
   player_overshoot_at_most_4 downKey (demoGame 706 (-4))
     (by decide) (by decide) (by decide) (by decide) (by decide) (by decide)⟩

/-- C10: for every game state (tile sizes nonzero so that the tick returns)
in which `isBarrier` is true at the position of the player, or the position of
the player equals the position of one of the two soldiers as it is at the
start of the tick, and for every combination of pressed arrow keys, one
`Update` leaves the player at the same `xLoc` and `yLoc`, with direction IDLE
and frame 1; and a player on a barrier tile is at the same position after any
number of `Update`s, whatever the keys. -/
theorem player_frozen_on_barrier_or_soldier (keys : Keys) (g : AnimatedSprite)
    (hw : g.gameMap.TileWidth ≠ 0) (hh : g.gameMap.TileHeight ≠ 0)
    (h : isBarrier g.player.xLoc g.player.yLoc g = some true ∨
      (g.player.xLoc = g.soldiers.1.toPlayerSprite.xLoc ∧
        g.player.yLoc = g.soldiers.1.toPlayerSprite.yLoc) ∨
      (g.player.xLoc = g.soldiers.2.toPlayerSprite.xLoc ∧
        g.player.yLoc = g.soldiers.2.toPlayerSprite.yLoc)) :
    (∃ g1, Update keys g = some g1 ∧
      g1.player.xLoc = g.player.xLoc ∧ g1.player.yLoc = g.player.yLoc ∧
      g1.player.direction = IDLE ∧ g1.player.frame = 1) ∧
    (isBarrier g.player.xLoc g.player.yLoc g = some true →
      ∀ ks : List Keys, ∃ gn, UpdateN ks g = some gn ∧
        gn.player.xLoc = g.player.xLoc ∧ gn.player.yLoc = g.player.yLoc) := by
  constructor
  · have h1 : isBarrier g.player.xLoc g.player.yLoc g = some true ∨
        isSoldierCollision g.player.xLoc g.player.yLoc g = true := by
      rcases h with h | ⟨hx, hy⟩ | ⟨hx, hy⟩
      · exact Or.inl h
      · right; unfold isSoldierCollision soldierHit; simp [hx, hy]
      · right; unfold isSoldierCollision soldierHit; simp [hx, hy]
    obtain ⟨g1, hU, _, _, hx, hy, hd, hf⟩ := Update_frozen keys g hw hh h1
    exact ⟨g1, hU, hx, hy, hd, hf⟩
  · intro hb ks
    exact UpdateN_on_barrier ks g hw hh hb

theorem player_frozen_on_barrier_or_soldier_witness :
    (demoGame 40 10).gameMap.TileWidth ≠ 0 ∧ (demoGame 40 10).gameMap.TileHeight ≠ 0 ∧
    isBarrier (demoGame 40 10).player.xLoc (demoGame 40 10).player.yLoc (demoGame 40 10) =
      some true ∧
    ((∃ g1, Update leftKey (demoGame 40 10) = some g1 ∧
      g1.player.xLoc = (demoGame 40 10).player.xLoc ∧
      g1.player.yLoc = (demoGame 40 10).player.yLoc ∧
      g1.player.direction = IDLE ∧ g1.player.frame = 1) ∧
     (isBarrier (demoGame 40 10).player.xLoc (demoGame 40 10).player.yLoc (demoGame 40 10) =
        some true →
      ∀ ks : List Keys, ∃ gn, UpdateN ks (demoGame 40 10) = some gn ∧
        gn.player.xLoc = (demoGame 40 10).player.xLoc ∧
        gn.player.yLoc = (demoGame 40 10).player.yLoc)) :=
  ⟨by decide, by decide, by decide,
   player_frozen_on_barrier_or_soldier leftKey (demoGame 40 10) (by decide) (by decide)
     (Or.inl (by decide))⟩

/-! ## The player at the window edge and at a barrier tile -/

set_option maxRecDepth 100000 in
/-- C1, the code at the failing input: the game on `arenaMap` starts with the
player at `(351, 343)`, inside `[0, 702] x [0, 686]`; after 70 ticks with the
left arrow held the player is at `(1, 343)`, still inside; the next tick with
the left arrow held passes the guard `xLoc > 0` and puts the player at
`(-4, 343)`, outside the window bounds.  A soldier in the same place is
clamped by `updateSoldier` to `xLoc = 0`. -/
theorem player_leaves_window_at_left_edge :
    (arenaGame.player.xLoc, arenaGame.player.yLoc) = (351, 343) ∧
    (UpdateN (List.replicate 70 leftKey) arenaGame).map
      (fun g => (g.player.xLoc, g.player.yLoc)) = some (1, 343) ∧
    (UpdateN (List.replicate 71 leftKey) arenaGame).map
      (fun g => (g.player.xLoc, g.player.yLoc)) = some (-4, 343) ∧
    ¬ (0 ≤ (-4 : Int)) ∧
    updateSoldier (soldierAt 1 343 LEFT 0) arenaGame = some (soldierAt 0 343 RIGHT 1) := by
  decide

set_option maxRecDepth 100000 in
/-- C3, the code at the failing inputs.  Player: on `arenaMap`, whose barrier
set as built by `main` is the single tile 288, the player started at
`(351, 343)` is after 7 ticks with the right arrow held at `(386, 343)`, where
`isBarrier` is false, and after the 8th such tick at `(391, 343)`, where
`isBarrier` is true.  Soldier: a soldier at `(389, 343)` heading RIGHT, where
`isBarrier` is false, is moved by one `updateSoldier` to `(391, 343)`, where
`isBarrier` is true. -/
theorem sprites_enter_barrier_tile :
    buildBarriers arenaMap = some arenaGame.barriers ∧
    (UpdateN (List.replicate 7 rightKey) arenaGame).bind
      (fun g => (isBarrier g.player.xLoc g.player.yLoc g).map
        (fun b => (g.player.xLoc, g.player.yLoc, b))) = some (386, 343, false) ∧
    (UpdateN (List.replicate 8 rightKey) arenaGame).bind
      (fun g => (isBarrier g.player.xLoc g.player.yLoc g).map
        (fun b => (g.player.xLoc, g.player.yLoc, b))) = some (391, 343, true) ∧
    isBarrier 389 343 arenaGame = some false ∧
    updateSoldier (soldierAt 389 343 RIGHT 0) arenaGame = some (soldierAt 391 343 RIGHT 1) ∧
    isBarrier 391 343 arenaGame = some true := by
  decide

/-! ## The barrier set built at startup -/

theorem BarrierMap.get_nil (k : Int) : BarrierMap.get [] k = false := rfl

theorem BarrierMap.get_set (m : BarrierMap) (k j : Int) (v : Bool) :
    (m.set k v).get j = if k = j then v else m.get j := rfl

theorem tileID_inside (m : TiledMap) (i : Int) (h0 : 0 ≤ i) (h1 : i < m.Tiles.length) :
    ∃ id, tileID m i = some id := by
  have hlt : i.toNat < m.Tiles.length := by omega
  refine ⟨m.Tiles.get ⟨i.toNat, hlt⟩, ?_⟩
  unfold tileID
  rw [if_pos h0]
  exact List.get?_eq_get hlt

theorem barrierCell_step (m : TiledMap) (y x : Nat) (b : BarrierMap)
    (hb : BuiltUpTo m ((y : Int) * m.Width + x) b)
    (h0 : 0 ≤ (y : Int) * m.Width + x)
    (h1 : (y : Int) * m.Width + x < m.Tiles.length) :
    ∃ b1, barrierCell m y x b = some b1 ∧ BuiltUpTo m ((y : Int) * m.Width + x + 1) b1 := by
  obtain ⟨id, hid⟩ := tileID_inside m _ h0 h1
  unfold barrierCell; dsimp only
  rw [hid]; dsimp only
  by_cases h : id = 1
  · rw [if_pos h]
    refine ⟨_, rfl, ?_⟩
    intro i
    rw [BarrierMap.get_set]
    by_cases hi : (y : Int) * m.Width + x = i
    · rw [if_pos hi]
      subst hi
      simp only [true_iff]
      exact ⟨h0, by omega, by rw [hid, h]⟩
    · rw [if_neg hi, hb i]
      constructor
      · rintro ⟨a, c, d⟩; exact ⟨a, by omega, d⟩
      · rintro ⟨a, c, d⟩; exact ⟨a, by omega, d⟩
  · rw [if_neg h]
    refine ⟨_, rfl, ?_⟩
    intro i
    rw [hb i]
    constructor
    · rintro ⟨a, c, d⟩; exact ⟨a, by omega, d⟩
    · rintro ⟨a, c, d⟩
      refine ⟨a, ?_, d⟩
      by_contra hc
      have hi : i = (y : Int) * m.Width + x := by omega
      rw [hi, hid] at d
      exact h (Option.some.inj d)

theorem barrierRow_prefix (m : TiledMap) (y : Nat) (b : BarrierMap)
    (hW : 0 ≤ m.Width) (hb : BuiltUpTo m ((y : Int) * m.Width) b)
    (hlen : (y : Int) * m.Width + m.Width ≤ m.Tiles.length) :
    ∀ k : Nat, (k : Int) ≤ m.Width →
      ∃ b1, (List.range k).foldlM (fun b x => barrierCell m y x b) b = some b1 ∧
        BuiltUpTo m ((y : Int) * m.Width + k) b1 := by
  intro k
  induction k with
  | zero =>
    intro _
    exact ⟨b, rfl, by simpa using hb⟩
  | succ k ih =>
    intro hk
    obtain ⟨b1, hf, hb1⟩ := ih (by omega)
    have hy : 0 ≤ (y : Int) * m.Width := mul_nonneg (Int.ofNat_nonneg y) hW
    obtain ⟨b2, hc, hb2⟩ := barrierCell_step m y k b1 hb1 (by omega) (by omega)
    refine ⟨b2, ?_, ?_⟩
    · rw [List.range_succ, List.foldlM_append, hf]
      simpa using hc
    · have he : (y : Int) * m.Width + ((k + 1 : Nat) : Int) = (y : Int) * m.Width + k + 1 := by
        push_cast; ring
      rw [he]; exact hb2

theorem barrierRow_step (m : TiledMap) (y : Nat) (b : BarrierMap)
    (hW : 0 ≤ m.Width) (hb : BuiltUpTo m ((y : Int) * m.Width) b)
    (hlen : (y : Int) * m.Width + m.Width ≤ m.Tiles.length) :
    ∃ b1, barrierRow m y b = some b1 ∧ BuiltUpTo m (((y + 1 : Nat) : Int) * m.Width) b1 := by
  obtain ⟨b1, hf, hb1⟩ := barrierRow_prefix m y b hW hb hlen m.Width.toNat (by omega)
  refine ⟨b1, hf, ?_⟩
  have he : ((y + 1 : Nat) : Int) * m.Width = (y : Int) * m.Width + (m.Width.toNat : Int) := by
    rw [Int.toNat_of_nonneg hW]; push_cast; ring
  rw [he]; exact hb1

theorem buildBarriers_prefix (m : TiledMap) (hW : 0 ≤ m.Width)
    (hlen : (m.Tiles.length : Int) = m.Width * m.Height) :
    ∀ j : Nat, (j : Int) ≤ m.Height →
      ∃ b, (List.range j).foldlM (fun b y => barrierRow m y b) [] = some b ∧
        BuiltUpTo m ((j : Int) * m.Width) b := by
  intro j
  induction j with
  | zero =>
    intro _
    refine ⟨[], rfl, ?_⟩
    intro i
    simp only [BarrierMap.get_nil, Bool.false_eq_true, false_iff]
    rintro ⟨a, c, _⟩
    simp at c
    omega
  | succ j ih =>
    intro hj
    obtain ⟨b, hf, hb⟩ := ih (by omega)
    have hrow : (j : Int) * m.Width + m.Width ≤ m.Tiles.length := by
      have h1 : ((j : Int) + 1) * m.Width ≤ m.Height * m.Width :=
        mul_le_mul_of_nonneg_right (by push_cast at hj; omega) hW
      rw [hlen]; linarith
    obtain ⟨b1, hr, hb1⟩ := barrierRow_step m j b hW hb hrow
    refine ⟨b1, ?_, hb1⟩
    rw [List.range_succ, List.foldlM_append, hf]
    simpa using hr

theorem buildBarriers_spec (m : TiledMap) (hW : 0 ≤ m.Width) (hH : 0 ≤ m.Height)
    (hlen : (m.Tiles.length : Int) = m.Width * m.Height) :
    ∃ b, buildBarriers m = some b ∧ BuiltUpTo m (m.Width * m.Height) b := by
  obtain ⟨b, hf, hb⟩ := buildBarriers_prefix m hW hlen m.Height.toNat (by omega)
  refine ⟨b, hf, ?_⟩
  have he : m.Width * m.Height = (m.Height.toNat : Int) * m.Width := by
    rw [Int.toNat_of_nonneg hH]; ring
  rw [he]; exact hb

/-- C4: for every map with width `W ≥ 0`, height `H ≥ 0` and a layer-0 tile
list of length `W * H`, the loop of `main` returns a barrier set, and that set
holds exactly the indices `i = y * W + x` with `0 ≤ x < W`, `0 ≤ y < H` whose
layer-0 tile has ID 1; hence every index in it lies in `[0, W * H)`; and no
`Update` and no `updateSoldier` call on a game carrying that set changes it. -/
theorem barriers_built_exactly (m : TiledMap) (hW : 0 ≤ m.Width) (hH : 0 ≤ m.Height)
    (hlen : (m.Tiles.length : Int) = m.Width * m.Height) :
    ∃ b, buildBarriers m = some b ∧
      (∀ i : Int, b.get i = true ↔
        ∃ x y : Int, 0 ≤ x ∧ x < m.Width ∧ 0 ≤ y ∧ y < m.Height ∧
          i = y * m.Width + x ∧ tileID m i = some 1) ∧
      (∀ i : Int, b.get i = true → 0 ≤ i ∧ i < m.Width * m.Height) ∧
      (∀ (keys : Keys) (g g1 : AnimatedSprite),
        g.barriers = b → Update keys g = some g1 → g1.barriers = b) ∧
      (∀ g g1 : AnimatedSprite,
        g.barriers = b → updateSoldier0 g = some g1 → g1.barriers = b) ∧
      (∀ g g1 : AnimatedSprite,
        g.barriers = b → updateSoldier1 g = some g1 → g1.barriers = b) := by
  obtain ⟨b, hf, hb⟩ := buildBarriers_spec m hW hH hlen
  refine ⟨b, hf, ?_, ?_, ?_, ?_, ?_⟩
  · intro i
    rw [hb i]
    constructor
    · rintro ⟨h0, h1, ht⟩
      have hWpos : 0 < m.Width := by
        rcases lt_or_eq_of_le hW with h | h
        · exact h
        · rw [← h] at h1; simp at h1; omega
      refine ⟨i % m.Width, i / m.Width, Int.emod_nonneg i (ne_of_gt hWpos),
        Int.emod_lt_of_pos i hWpos, Int.ediv_nonneg h0 hW, ?_, ?_, ht⟩
      · exact Int.ediv_lt_of_lt_mul hWpos (by rw [mul_comm]; exact h1)
      · have := Int.ediv_add_emod i m.Width
        rw [mul_comm] at this
        exact this.symm
    · rintro ⟨x, y, hx0, hx1, hy0, hy1, hi, ht⟩
      refine ⟨?_, ?_, ht⟩
      · have : 0 ≤ y * m.Width := mul_nonneg hy0 hW
        omega
      · have h1 : (y + 1) * m.Width ≤ m.Height * m.Width :=
          mul_le_mul_of_nonneg_right (by omega) hW
        have h2 : m.Width * m.Height = m.Height * m.Width := mul_comm _ _
        rw [hi, h2]; linarith
  · intro i hi
    have := (hb i).1 hi
    exact ⟨this.1, this.2.1⟩
  · intro keys g g1 hg hU
    rw [Update_barriers keys g g1 hU, hg]
  · intro g g1 hg hU
    rw [updateSoldier0_barriers g g1 hU, hg]
  · intro g g1 hg hU
    rw [updateSoldier1_barriers g g1 hU, hg]

theorem barriers_built_exactly_witness :
    0 ≤ demoMap.Width ∧ 0 ≤ demoMap.Height ∧
    (demoMap.Tiles.length : Int) = demoMap.Width * demoMap.Height ∧
    buildBarriers demoMap = some demoBarriers ∧
    ∃ b, buildBarriers demoMap = some b ∧
      (∀ i : Int, b.get i = true ↔
        ∃ x y : Int, 0 ≤ x ∧ x < demoMap.Width ∧ 0 ≤ y ∧ y < demoMap.Height ∧
          i = y * demoMap.Width + x ∧ tileID demoMap i = some 1) ∧
      (∀ i : Int, b.get i = true → 0 ≤ i ∧ i < demoMap.Width * demoMap.Height) ∧
      (∀ (keys : Keys) (g g1 : AnimatedSprite),
        g.barriers = b → Update keys g = some g1 → g1.barriers = b) ∧
      (∀ g g1 : AnimatedSprite,
        g.barriers = b → updateSoldier0 g = some g1 → g1.barriers = b) ∧
      (∀ g g1 : AnimatedSprite,
        g.barriers = b → updateSoldier1 g = some g1 → g1.barriers = b) :=
  ⟨by decide, by decide, by decide, by decide,
   barriers_built_exactly demoMap (by decide) (by decide) (by decide)⟩

/-! ## The patrol cycle -/

theorem isBarrier_no_barriers (x y : Int) (g : AnimatedSprite)
    (hw : g.gameMap.TileWidth ≠ 0) (hh : g.gameMap.TileHeight ≠ 0) (hb : g.barriers = []) :
    isBarrier x y g = some false := by
  simp [isBarrier, goDiv, hw, hh, hb, BarrierMap.get]

/-- When the step keeps the soldier inside the window the clamp does nothing. -/
theorem soldierMove_free (p : PlayerSprite) (h0 : 0 ≤ p.xLoc) (h1 : p.xLoc ≤ 702)
    (hL : p.direction = LEFT → 2 ≤ p.xLoc) (hR : p.direction = RIGHT → p.xLoc ≤ 700) :
    soldierMove p =
      { p with xLoc := if p.direction = LEFT then p.xLoc - 2
                       else if p.direction = RIGHT then p.xLoc + 2 else p.xLoc } := by
  have hl : wrap64 (p.xLoc - 2) = p.xLoc - 2 := by unfold wrap64; omega
  have hr : wrap64 (p.xLoc + 2) = p.xLoc + 2 := by unfold wrap64; omega
  unfold soldierMove; dsimp only
  rw [hl, hr]
  simp only [WINDOW_WIDTH, GUY_FRAME_WIDTH]
  by_cases hdL : p.direction = LEFT
  · have := hL hdL
    simp only [hdL, if_true]
    rw [if_neg (by omega), if_neg (by omega)]
  · by_cases hdR : p.direction = RIGHT
    · have := hR hdR
      simp only [hdR, if_true, if_neg (show ¬ RIGHT = LEFT by decide)]
      rw [if_neg (by omega), if_neg (by omega)]
    · simp only [if_neg hdL, if_neg hdR]
      rw [if_neg (by omega), if_neg (by omega)]

/-- One call of `updateSoldier` on a map without barriers keeps a soldier on
its patrol and advances its cycle position by one. -/
theorem updateSoldier_patrol (g : AnimatedSprite)
    (hw : g.gameMap.TileWidth ≠ 0) (hh : g.gameMap.TileHeight ≠ 0) (hbar : g.barriers = [])
    (base : Int) (hb0 : 0 ≤ base) (hb1 : base ≤ 582)
    (s : SoldierSprite) (hs : OnPatrol base s) :
    ∃ s1, updateSoldier s g = some s1 ∧ OnPatrol base s1 ∧
      cycleTick s1 = (cycleTick s + 1) % 240 ∧
      s1.toPlayerSprite.yLoc = s.toPlayerSprite.yLoc ∧
      s1.toPlayerSprite.frame = s.toPlayerSprite.frame ∧
      s1.toPlayerSprite.frameDelay = s.toPlayerSprite.frameDelay := by
  have hfree := isBarrier_no_barriers s.toPlayerSprite.xLoc s.toPlayerSprite.yLoc g hw hh hbar
  rcases updateSoldier_cases s g hw hh with ⟨h1, _⟩ | ⟨_, hU⟩
  · rw [hfree] at h1; cases h1
  refine ⟨_, hU, ?_⟩
  obtain ⟨⟨x, y, d, f, fd⟩, mc⟩ := s
  unfold OnPatrol cycleOffset at hs
  simp only [RIGHT, DOWN, LEFT] at hs
  obtain ⟨hd0, hd1, hm0, hm1, hx⟩ := hs
  have hoff : 0 ≤ x - base ∧ x - base ≤ 120 := by
    split_ifs at hx <;> omega
  rcases lt_or_eq_of_le (show mc ≤ 59 by omega) with hm | hm
  · -- no turn on this call
    rw [soldierTick_before_turn _ hm0 hm]
    dsimp only
    rw [soldierMove_free _ (by dsimp only; omega) (by dsimp only; omega)
      (by dsimp only [LEFT]; intro h; rw [if_neg (by omega), if_neg (by omega), if_pos h] at hx
          omega)
      (by dsimp only [RIGHT]; intro h; rw [if_pos h] at hx; omega)]
    unfold OnPatrol cycleOffset cycleTick
    simp only [RIGHT, DOWN, LEFT]
    refine ⟨⟨hd0, hd1, by omega, by omega, ?_⟩, by omega, trivial, trivial, trivial⟩
    split_ifs at hx ⊢ <;> omega
  · -- the call on which the counter reaches 60
    subst hm
    rw [soldierTick_at_turn _ rfl]
    dsimp only
    have hd : d = 0 ∨ d = 1 ∨ d = 2 ∨ d = 3 := by omega
    rcases hd with rfl | rfl | rfl | rfl
    · have e : Int.tmod (wrap64 (0 + 1)) 4 = 1 := by decide
      rw [e, soldierMove_free _ (by dsimp only; omega) (by dsimp only; omega)
        (by dsimp only [LEFT]; intro h; omega) (by dsimp only [RIGHT]; intro _; omega)]
      unfold OnPatrol cycleOffset cycleTick
      simp only [RIGHT, DOWN, LEFT]
      norm_num at hx ⊢
      omega
    · have e : Int.tmod (wrap64 (1 + 1)) 4 = 2 := by decide
      rw [e, soldierMove_free _ (by dsimp only; omega) (by dsimp only; omega)
        (by dsimp only [LEFT]; intro h; omega) (by dsimp only [RIGHT]; intro h; omega)]
      unfold OnPatrol cycleOffset cycleTick
      simp only [RIGHT, DOWN, LEFT]
      norm_num at hx ⊢
      omega
    · have e : Int.tmod (wrap64 (2 + 1)) 4 = 3 := by decide
      rw [e, soldierMove_free _ (by dsimp only; omega) (by dsimp only; omega)
        (by dsimp only [LEFT]; intro _; norm_num at hx; omega)
        (by dsimp only [RIGHT]; intro h; omega)]
      unfold OnPatrol cycleOffset cycleTick
      simp only [RIGHT, DOWN, LEFT]
      norm_num at hx ⊢
      omega
    · have e : Int.tmod (wrap64 (3 + 1)) 4 = 0 := by decide
      rw [e, soldierMove_free _ (by dsimp only; omega) (by dsimp only; omega)
        (by dsimp only [LEFT]; intro h; omega) (by dsimp only [RIGHT]; intro h; omega)]
      unfold OnPatrol cycleOffset cycleTick
      simp only [RIGHT, DOWN, LEFT]
      norm_num at hx ⊢
      omega

theorem updateSoldierN_patrol (g : AnimatedSprite)
    (hw : g.gameMap.TileWidth ≠ 0) (hh : g.gameMap.TileHeight ≠ 0) (hbar : g.barriers = [])
    (base : Int) (hb0 : 0 ≤ base) (hb1 : base ≤ 582) (n : Nat) :
    ∀ s : SoldierSprite, OnPatrol base s →
      ∃ s1, updateSoldierN n s g = some s1 ∧ OnPatrol base s1 ∧
        cycleTick s1 = (cycleTick s + n) % 240 ∧
        s1.toPlayerSprite.yLoc = s.toPlayerSprite.yLoc ∧
        s1.toPlayerSprite.frame = s.toPlayerSprite.frame ∧
        s1.toPlayerSprite.frameDelay = s.toPlayerSprite.frameDelay := by
  induction n with
  | zero =>
    intro s hs
    refine ⟨s, rfl, hs, ?_, rfl, rfl, rfl⟩
    obtain ⟨h1, h2, h3, h4, _⟩ := hs
    unfold cycleTick
    push_cast
    omega
  | succ n ih =>
    intro s hs
    obtain ⟨s1, hU, hs1, ht1, hy1, hf1, hfd1⟩ := updateSoldier_patrol g hw hh hbar base hb0 hb1 s hs
    obtain ⟨s2, hN, hs2, ht2, hy2, hf2, hfd2⟩ := ih s1 hs1
    refine ⟨s2, ?_, hs2, ?_, by rw [hy2, hy1], by rw [hf2, hf1], by rw [hfd2, hfd1]⟩
    · show (match updateSoldier s g with
        | none => none
        | some s1 => updateSoldierN n s1 g) = some s2
      rw [hU]; exact hN
    · rw [ht2, ht1]
      push_cast
      omega

/-- Every soldier on a patrol stands between its left end and 120 pixels to
the right of it. -/
theorem cycleOffset_range (s : SoldierSprite)
    (h0 : 0 ≤ s.moveCount) (h1 : s.moveCount < 60) :
    0 ≤ cycleOffset s ∧ cycleOffset s ≤ 120 := by
  unfold cycleOffset
  split_ifs <;> omega

/-- C8: for every soldier with direction in UP, RIGHT, DOWN, LEFT, with
`0 ≤ moveCount < 60` and `120 ≤ xLoc ≤ 582`, on a map with positive tile
width and height and an empty barrier set, 240 consecutive calls of
`updateSoldier` return exactly the soldier they started from, and after each
of the first 240 calls `xLoc` is within 120 of its starting value. -/
theorem patrol_returns_after_240 (s : SoldierSprite) (g : AnimatedSprite)
    (hw : 0 < g.gameMap.TileWidth) (hh : 0 < g.gameMap.TileHeight) (hbar : g.barriers = [])
    (hd : s.toPlayerSprite.direction = UP ∨ s.toPlayerSprite.direction = RIGHT ∨
      s.toPlayerSprite.direction = DOWN ∨ s.toPlayerSprite.direction = LEFT)
    (hm0 : 0 ≤ s.moveCount) (hm1 : s.moveCount < 60)
    (hx0 : 120 ≤ s.toPlayerSprite.xLoc) (hx1 : s.toPlayerSprite.xLoc ≤ 582) :
    updateSoldierN 240 s g = some s ∧
    ∀ k : Nat, k ≤ 240 → ∃ sk, updateSoldierN k s g = some sk ∧
      -120 ≤ sk.toPlayerSprite.xLoc - s.toPlayerSprite.xLoc ∧
      sk.toPlayerSprite.xLoc - s.toPlayerSprite.xLoc ≤ 120 := by
  have hoff := cycleOffset_range s hm0 hm1
  have hdir : 0 ≤ s.toPlayerSprite.direction ∧ s.toPlayerSprite.direction ≤ 3 := by
    simp only [UP, RIGHT, DOWN, LEFT] at hd
    omega
  have hs : OnPatrol (s.toPlayerSprite.xLoc - cycleOffset s) s :=
    ⟨hdir.1, hdir.2, hm0, hm1, by ring⟩
  have hrun := updateSoldierN_patrol g (ne_of_gt hw) (ne_of_gt hh) hbar
    (s.toPlayerSprite.xLoc - cycleOffset s) (by omega) (by omega)
  constructor
  · obtain ⟨s1, hN, hs1, ht, hy, hf, hfd⟩ := hrun 240 s hs
    rw [hN]
    congr 1
    obtain ⟨a1, a2, a3, a4, a5⟩ := hs1
    obtain ⟨⟨x1, y1, d1, f1, fd1⟩, mc1⟩ := s1
    obtain ⟨⟨x, y, d, f, fd⟩, mc⟩ := s
    unfold cycleTick at ht
    unfold cycleOffset at a5
    simp only [RIGHT, DOWN, LEFT] at *
    push_cast at ht
    have hdd : d1 = d := by omega
    have hmm : mc1 = mc := by omega
    subst hdd hmm hy hf hfd
    have hxx : x1 = x := by rw [a5]; ring
    rw [hxx]
  · intro k _
    obtain ⟨sk, hN, hsk, _, _, _, _⟩ := hrun k s hs
    refine ⟨sk, hN, ?_⟩
    have hoffk := cycleOffset_range sk hsk.2.2.1 hsk.2.2.2.1
    have hxk := hsk.2.2.2.2
    omega

theorem patrol_returns_after_240_witness :
    0 < ({ demoGame 351 343 with barriers := [] } : AnimatedSprite).gameMap.TileWidth ∧
    0 < ({ demoGame 351 343 with barriers := [] } : AnimatedSprite).gameMap.TileHeight ∧
    ({ demoGame 351 343 with barriers := [] } : AnimatedSprite).barriers = [] ∧
    (soldierAt 120 100 LEFT 17).toPlayerSprite.direction = LEFT ∧
    0 ≤ (soldierAt 120 100 LEFT 17).moveCount ∧ (soldierAt 120 100 LEFT 17).moveCount < 60 ∧
    120 ≤ (soldierAt 120 100 LEFT 17).toPlayerSprite.xLoc ∧
    (soldierAt 120 100 LEFT 17).toPlayerSprite.xLoc ≤ 582 ∧
    (updateSoldierN 240 (soldierAt 120 100 LEFT 17) { demoGame 351 343 with barriers := [] } =
        some (soldierAt 120 100 LEFT 17) ∧
     ∀ k : Nat, k ≤ 240 →
      ∃ sk, updateSoldierN k (soldierAt 120 100 LEFT 17)
          { demoGame 351 343 with barriers := [] } = some sk ∧
        -120 ≤ sk.toPlayerSprite.xLoc - (soldierAt 120 100 LEFT 17).toPlayerSprite.xLoc ∧
        sk.toPlayerSprite.xLoc - (soldierAt 120 100 LEFT 17).toPlayerSprite.xLoc ≤ 120) :=
  ⟨by decide, by decide, rfl, rfl, by decide, by decide, by decide, by decide,
   patrol_returns_after_240 (soldierAt 120 100 LEFT 17) { demoGame 351 343 with barriers := [] }
     (by decide) (by decide) rfl (Or.inr (Or.inr (Or.inr rfl)))
     (by decide) (by decide) (by decide) (by decide)⟩

end TileGame
